import Mathlib

/-!
Verification development for the process entry point of
opentelemetry-infinity (`cmd/main.go`).

Part 1 embeds the configuration-resolution pipeline of `initConfig` and
the top of `Run`: viper defaults, `AutomaticEnv` with the `.` to `_`
key replacer, `MergeConfigMap(v.AllSettings())`, the assignment of the
cobra flag globals into the config struct, and `viper.Unmarshal`.

Part 2 embeds the logger construction (`zap.NewAtomicLevel`,
`SetLevel(DebugLevel)` / `SetLevel(InfoLevel)` depending on the `Debug`
flag, and zapcore level enabling).

Part 3 embeds the lifecycle coordinator (signal watcher goroutine,
root-context cancellation, `done` channel, `os.Exit` paths) as a
small-step transition system over all interleavings.
-/

namespace OtlpInfMain

/-- Value in a viper settings map: viper stores the hardcoded defaults
with their Go types (bool / string / int) and environment lookups as raw
strings. -/
inductive VVal where
  | vb : Bool → VVal
  | vs : String → VVal
  | vn : Nat → VVal
deriving DecidableEq, Repr

/-- Process environment: a partial map from variable names to values,
as consulted by viper's `AutomaticEnv`. -/
structure Env where
  lookup : String → Option String

/-- ASCII upper-casing of a single character (Go `strings.ToUpper` on
the ASCII configuration keys used here). -/
def upperAscii (c : Char) : Char :=
  if c.isLower then Char.ofNat (c.toNat - 32) else c

/-- Upper-case a key and replace every dot by an underscore, character
by character. -/
def envKeyChars : List Char → List Char
  | [] => []
  | c :: cs => (if c = '.' then '_' else upperAscii c) :: envKeyChars cs

/-- Key transformation performed by viper for `AutomaticEnv` with
`SetEnvKeyReplacer(strings.NewReplacer(".", "_"))`: the configuration
key is upper-cased and then dots are replaced by underscores
(`mergeWithEnvPrefix` upper-cases, `getEnv` applies the replacer;
the two steps commute, so they are fused into one pass). -/
def envKey (k : String) : String := String.mk (envKeyChars k.data)

/-- viper `Get` on the sub-instance `v` of `initConfig`: with
`AutomaticEnv` enabled, an environment variable (under the transformed
name) takes priority and is returned as a raw string; otherwise the
value registered by `SetDefault` is returned. `v.AllSettings()` is the
map of all three keys resolved this way, and `MergeConfigMap` copies it
verbatim into the global viper that `Run` later unmarshals. -/
def viperGet (env : Env) (k : String) (dflt : VVal) : VVal :=
  match env.lookup (envKey k) with
  | some s => VVal.vs s
  | none => dflt

/-- Merged setting for key `otlp_inf.debug` (default `false`,
from `v.SetDefault("otlp_inf.debug", false)`). -/
def settingDebug (env : Env) : VVal := viperGet env "otlp_inf.debug" (VVal.vb false)

/-- Merged setting for key `otlp_inf.server_host` (default
`"localhost"`). -/
def settingServerHost (env : Env) : VVal :=
  viperGet env "otlp_inf.server_host" (VVal.vs "localhost")

/-- Merged setting for key `otlp_inf.server_port` (default `10222`). -/
def settingServerPort (env : Env) : VVal :=
  viperGet env "otlp_inf.server_port" (VVal.vn 10222)

/-- Go `strconv.ParseBool`, used by mapstructure's weakly-typed decode
of a string into a bool field. -/
def parseBool (s : String) : Option Bool :=
  if s = "1" ∨ s = "t" ∨ s = "T" ∨ s = "TRUE" ∨ s = "true" ∨ s = "True" then some true
  else if s = "0" ∨ s = "f" ∨ s = "F" ∨ s = "FALSE" ∨ s = "false" ∨ s = "False" then some false
  else none

/-- Accumulate decimal digits; any non-digit character fails the
parse. -/
def decimalDigits : Nat → List Char → Option Nat
  | acc, [] => some acc
  | acc, c :: cs =>
      if '0' ≤ c ∧ c ≤ '9' then decimalDigits (acc * 10 + (c.toNat - 48)) cs else none

/-- Decimal unsigned-integer parse, the fragment of Go
`strconv.ParseUint` that the decoded values here can hit (the merged
settings are either Go ints from defaults or decimal strings from the
environment). The empty string is not a number. -/
def parseUint (s : String) : Option Nat :=
  match s.data with
  | [] => none
  | cs => decimalDigits 0 cs

/-- mapstructure weakly-typed decode into a `bool` struct field
(`viper.Unmarshal` uses `WeaklyTypedInput: true`): a bool is taken as
is, a string goes through `strconv.ParseBool` with `""` read as
`false`, a number is true iff nonzero. -/
def weakBool : VVal → Option Bool
  | VVal.vb b => some b
  | VVal.vs s => if s = "" then some false else parseBool s
  | VVal.vn n => some (n ≠ 0)

/-- mapstructure weakly-typed decode into a `string` struct field. -/
def weakString : VVal → Option String
  | VVal.vb b => some (if b then "1" else "0")
  | VVal.vs s => some s
  | VVal.vn n => some (toString n)

/-- mapstructure weakly-typed decode into a `uint64` struct field. -/
def weakNat : VVal → Option Nat
  | VVal.vb b => some (if b then 1 else 0)
  | VVal.vs s => parseUint s
  | VVal.vn n => some n

/-- Modelled from the spec: the nested `OtlpInf` section of the
configuration record (the `config` package of this repository is not
part of the shown source; §3 of the spec gives its fields `debug`,
`serverHost`, `serverPort`, addressed by the dotted keys
`otlp_inf.debug`, `otlp_inf.server_host`, `otlp_inf.server_port` that
`initConfig` registers, i.e. the struct carries the matching
mapstructure tags). -/
structure OtlpInfSection where
  debug : Bool
  serverHost : String
  serverPort : Nat
deriving DecidableEq, Repr

/-- Modelled from the spec: the configuration record, holding the
build-time `version` string and the `otlp_inf` section. -/
structure Config where
  version : String
  otlpInf : OtlpInfSection
deriving DecidableEq, Repr

/-- The cobra flag globals `Debug`, `ServerHost`, `ServerPort` of
`main.go`, as they stand after flag parsing (a flag not given on the
command line leaves its registered default in the global). -/
structure Flags where
  debug : Bool
  serverHost : String
  serverPort : Nat
deriving DecidableEq, Repr

/-- Flag defaults registered in `main`: `debug=false`,
`server_host="localhost"`, `server_port=10222`. -/
def defaultFlags : Flags :=
  { debug := false, serverHost := "localhost", serverPort := 10222 }

/-- viper `Unmarshal` into the (partially pre-filled) config struct:
every key present in the merged settings map is decoded over the
corresponding struct field; the `version` field has no key in the map
and is left untouched. A decode failure is the `ConfigDecodeError`
path (`cobra.CheckErr` / `os.Exit(1)` in `Run`). -/
def unmarshal (env : Env) (c : Config) : Except String Config :=
  match weakBool (settingDebug env), weakString (settingServerHost env),
      weakNat (settingServerPort env) with
  | some d, some h, some p =>
      Except.ok { c with otlpInf := { debug := d, serverHost := h, serverPort := p } }
  | _, _, _ => Except.error "config decode error"

/-- Configuration portion of `Run`: the config struct is first filled
with the embedded version and the three flag globals
(`config.OtlpInf.Debug = Debug` …), and then `viper.Unmarshal(&config)`
is applied to it. -/
def runResolveConfig (ver : String) (env : Env) (fl : Flags) : Except String Config :=
  let c0 : Config :=
    { version := ver
      otlpInf :=
        { debug := fl.debug, serverHost := fl.serverHost, serverPort := fl.serverPort } }
  unmarshal env c0

/-- Empty process environment. -/
def emptyEnv : Env := { lookup := fun _ => none }

/-- zapcore `DebugLevel`. -/
def zapDebugLevel : Int := -1

/-- zapcore `InfoLevel`. -/
def zapInfoLevel : Int := 0

/-- zapcore `WarnLevel`. -/
def zapWarnLevel : Int := 1

/-- Logger level selection in `Run`: `atomicLevel.SetLevel(zap.DebugLevel)`
when the `Debug` flag global is true, else
`atomicLevel.SetLevel(zap.InfoLevel)`. Note it reads the flag global
`Debug`, not the merged configuration. -/
def atomicLevelOf (debugFlag : Bool) : Int :=
  if debugFlag then zapDebugLevel else zapInfoLevel

/-- zapcore level gate: a record at level `l` is emitted by the core
iff `l >= minLevel` (`Level.Enabled`). -/
def levelEnabled (minLevel l : Int) : Bool := decide (minLevel ≤ l)

/-- Who invoked the root context's cancel function: the signal-watcher
goroutine of `Run`, or the service, which receives `cancelFunc` as the
second argument of `a.Start(rootCtx, cancelFunc)`. -/
inductive Actor where
  | watcher
  | service
deriving DecidableEq, Repr

/-- Observable events of a run of the lifecycle coordinator, in program
order. `stopCall b` records an invocation of `a.Stop(rootCtx)` where
`b` tells whether the root context was already cancelled at that
moment; `cancelBy a` an invocation of `cancelFunc` by actor `a`;
`doneWrite` / `doneRead` the send to and receive from the `done`
channel; `syncEv` the deferred `logger.Sync()`; `exitEv c` process
termination with exit code `c`. -/
inductive Event where
  | stopCall : Bool → Event
  | cancelBy : Actor → Event
  | doneWrite
  | doneRead
  | syncEv
  | exitEv : Nat → Event
deriving DecidableEq, Repr

/-- Program counter of the main routine inside `Run`: about to call
`a.Start` / blocked on `<-done` / returning from `Run` (which fires the
deferred `logger.Sync()` and then lets the process exit 0) / process
gone. -/
inductive MainPC where
  | mStart
  | mWait
  | mRet
  | mExited
deriving DecidableEq, Repr

/-- Program counter of the signal-watcher goroutine: at the `select` of
its `for` loop / about to call `cancelFunc()` after `a.Stop` / about to
send on `done` after observing `rootCtx.Done()` / returned. -/
inductive WatcherPC where
  | wSelect
  | wCancel
  | wWrite
  | wReturned
deriving DecidableEq, Repr

/-- Behaviour of the external collaborators in a given run, fixed up
front: whether `a.Start` returns a non-nil error, and whether the
service invokes the `cancelFunc` it is handed by
`a.Start(rootCtx, cancelFunc)` (the `otlpinf` package is not part of
the shown source; per the spec it is an opaque collaborator, so both
behaviours allowed by the call site are modelled). -/
structure Scenario where
  startErr : Bool
  svcCancels : Bool
deriving DecidableEq, Repr

/-- Global state of the coordinator: the two program counters, the
number of termination signals not yet delivered by the OS, the content
of the capacity-1 `sigs` channel, the cancellation status of the root
context, the content of the capacity-1 `done` channel, a pending
service-side cancel, the exit status, and the event trace. -/
structure CState where
  main : MainPC
  watcher : WatcherPC
  sigsLeft : Nat
  sigs : Nat
  cancelled : Bool
  doneBuf : Nat
  svcCancelPending : Bool
  exited : Option Nat
  events : List Event
deriving DecidableEq, Repr

/-- OS delivery of one termination signal: `signal.Notify` drops the
signal when the capacity-1 `sigs` buffer is already full. -/
def deliverSteps (s : CState) : List CState :=
  if 0 < s.sigsLeft then
    [{ s with sigsLeft := s.sigsLeft - 1, sigs := min (s.sigs + 1) 1 }]
  else []

/-- The service exercising the `cancelFunc` capability passed to it by
`a.Start(rootCtx, cancelFunc)` (enabled only in scenarios where the
service does so and `Start` has been called). -/
def serviceSteps (s : CState) : List CState :=
  if s.svcCancelPending then
    [{ s with svcCancelPending := false, cancelled := true, events := s.events ++ [Event.cancelBy Actor.service] }]
  else []

/-- Steps of the main routine: `a.Start(rootCtx, cancelFunc)` either
returns an error — `logger.Error` then `os.Exit(1)`, which terminates
the process WITHOUT running the deferred `logger.Sync()` — or returns
nil and the routine blocks on `<-done`; once `done` yields a value,
`Run` returns, the deferred `logger.Sync()` runs, and the process exits
with code 0. -/
def mainSteps (sc : Scenario) (s : CState) : List CState :=
  match s.main with
  | MainPC.mStart =>
      if sc.startErr then
        [{ s with main := MainPC.mExited, exited := some 1, events := s.events ++ [Event.exitEv 1] }]
      else
        [{ s with main := MainPC.mWait, svcCancelPending := sc.svcCancels }]
  | MainPC.mWait =>
      if 0 < s.doneBuf then
        [{ s with doneBuf := s.doneBuf - 1, main := MainPC.mRet, events := s.events ++ [Event.doneRead] }]
      else []
  | MainPC.mRet =>
      [{ s with main := MainPC.mExited, exited := some 0, events := s.events ++ [Event.syncEv, Event.exitEv 0] }]
  | MainPC.mExited => []

/-- Steps of the signal-watcher goroutine, translated from its
`for { select { ... } }`: when a signal is pending it is received and
`a.Stop(rootCtx)` is invoked (the event records whether the context
was already cancelled), then `cancelFunc()` is invoked and the loop
continues; when the root context is cancelled that branch is eligible
too (Go picks among ready `select` cases nondeterministically), and it
sends on `done` (blocking while the buffer is full) and returns. -/
def watcherSteps (s : CState) : List CState :=
  match s.watcher with
  | WatcherPC.wSelect =>
      (if 0 < s.sigs then
        [{ s with sigs := s.sigs - 1, watcher := WatcherPC.wCancel, events := s.events ++ [Event.stopCall s.cancelled] }]
      else []) ++
      (if s.cancelled then [{ s with watcher := WatcherPC.wWrite }] else [])
  | WatcherPC.wCancel =>
      [{ s with watcher := WatcherPC.wSelect, cancelled := true, events := s.events ++ [Event.cancelBy Actor.watcher] }]
  | WatcherPC.wWrite =>
      if s.doneBuf < 1 then
        [{ s with doneBuf := s.doneBuf + 1, watcher := WatcherPC.wReturned, events := s.events ++ [Event.doneWrite] }]
      else []
  | WatcherPC.wReturned => []

/-- One interleaving step: any enabled action of the OS, the service,
the main routine or the watcher; `os.Exit` (a recorded exit) stops
everything. -/
def next (sc : Scenario) (s : CState) : List CState :=
  if s.exited.isSome then []
  else deliverSteps s ++ serviceSteps s ++ mainSteps sc s ++ watcherSteps s

/-- Initial state of the coordinator portion of `Run`, right after the
watcher goroutine is spawned and before `a.Start` is called, with `n`
termination signals to be delivered during the run. -/
def initState (n : Nat) : CState :=
  { main := MainPC.mStart, watcher := WatcherPC.wSelect, sigsLeft := n, sigs := 0, cancelled := false, doneBuf := 0, svcCancelPending := false, exited := none, events := [] }

/-- State with the service up and `Run` blocked on `<-done`
(the `Running` state of the spec's state machine), with `n` signals yet
to arrive. -/
def runningState (n : Nat) : CState :=
  { initState n with main := MainPC.mWait }

/-- Reachability under arbitrary interleaving. -/
def Reach (sc : Scenario) (a b : CState) : Prop :=
  Relation.ReflTransGen (fun x y => y ∈ next sc x) a b

/-- Executable check that each list element is a `next`-successor of its
predecessor; used to exhibit concrete executions. -/
def stepChain (sc : Scenario) : CState → List CState → Bool
  | _, [] => true
  | a, b :: rest => decide (b ∈ next sc a) && stepChain sc b rest

/-- Scenario of a normal run: `a.Start` returns nil and the service
never touches the cancel function. -/
def plainScenario : Scenario := { startErr := false, svcCancels := false }

/-- Scenario where `a.Start` returns a non-nil error. -/
def startErrScenario : Scenario := { startErr := true, svcCancels := false }

/-- Scenario where `a.Start` returns nil and the service invokes the
`cancelFunc` it received from `a.Start(rootCtx, cancelFunc)`. -/
def svcCancelScenario : Scenario := { startErr := false, svcCancels := true }

/-- Event sequence of the graceful shutdown: `a.Stop` on a live
context, watcher-side `cancelFunc()`, the `done` send, the `done`
receive, the deferred `logger.Sync()`, exit 0. -/
def shutdownTrace : List Event :=
  [Event.stopCall false, Event.cancelBy Actor.watcher, Event.doneWrite,
    Event.doneRead, Event.syncEv, Event.exitEv 0]

/-- Running state after the one pending signal was delivered into the
`sigs` buffer. -/
def sigDelivered : CState := { runningState 0 with sigs := 1 }

/-- State right after the watcher received the signal and invoked
`a.Stop(rootCtx)` (context still live at the call). -/
def stopDone : CState :=
  { runningState 0 with watcher := WatcherPC.wCancel, events := [Event.stopCall false] }

/-- State right after the watcher invoked `cancelFunc()` and looped
back to the `select`. -/
def cancelDone : CState :=
  { runningState 0 with cancelled := true, events := [Event.stopCall false, Event.cancelBy Actor.watcher] }

/-- State where the watcher took the `rootCtx.Done()` branch and is
about to send on `done`. -/
def atWrite : CState := { cancelDone with watcher := WatcherPC.wWrite }

/-- State right after the `done <- true` send. -/
def writeDone : CState :=
  { cancelDone with watcher := WatcherPC.wReturned, doneBuf := 1, events := cancelDone.events ++ [Event.doneWrite] }

/-- State right after the main routine received from `done` and `Run`
is returning. -/
def readDone : CState :=
  { writeDone with main := MainPC.mRet, doneBuf := 0, events := writeDone.events ++ [Event.doneRead] }

/-- Terminal state of the graceful shutdown: deferred sync ran and the
process exited with code 0. -/
def shutdownFinal : CState :=
  { readDone with main := MainPC.mExited, exited := some 0, events := readDone.events ++ [Event.syncEv, Event.exitEv 0] }

/-- All states reachable from `runningState 1` under `plainScenario`
(one termination signal while Running): the execution is forced into a
single line. -/
def sigStates : List CState :=
  [runningState 1, sigDelivered, stopDone, cancelDone, atWrite, writeDone,
    readDone, shutdownFinal]

/-- Terminal state of the `Start`-error path with no signal: `os.Exit(1)`
ran, and the deferred `logger.Sync()` never did. -/
def startErrFinal : CState :=
  { initState 0 with main := MainPC.mExited, exited := some 1, events := [Event.exitEv 1] }

/-- All states reachable from `initState 0` under `startErrScenario`. -/
def startErrStates : List CState := [initState 0, startErrFinal]

/-- Intermediate states of a run where a signal arrives while `a.Start`
is still in flight and `Start` then returns an error: the watcher calls
`a.Stop` and cancels, and the main routine still exits 1. -/
def raceDelivered : CState := { initState 0 with sigs := 1 }

/-- Watcher received the racing signal and called `a.Stop(rootCtx)`. -/
def raceStopDone : CState :=
  { initState 0 with watcher := WatcherPC.wCancel, events := [Event.stopCall false] }

/-- Watcher invoked `cancelFunc()` during the race. -/
def raceCancelDone : CState :=
  { initState 0 with cancelled := true, events := [Event.stopCall false, Event.cancelBy Actor.watcher] }

/-- `a.Start` returned its error after the racing shutdown: exit code 1
although `a.Stop` was invoked. -/
def raceFinal : CState :=
  { raceCancelDone with main := MainPC.mExited, exited := some 1, events := raceCancelDone.events ++ [Event.exitEv 1] }

/-- State after `a.Start(rootCtx, cancelFunc)` returned nil in the
scenario where the service will use the cancel function. -/
def svcStarted : CState :=
  { initState 0 with main := MainPC.mWait, svcCancelPending := true }

/-- State after the service invoked the `cancelFunc` handed to it by
`a.Start`: the root context is cancelled although the watcher never ran
its signal branch. -/
def svcCancelled : CState :=
  { initState 0 with main := MainPC.mWait, cancelled := true, events := [Event.cancelBy Actor.service] }

/-- Environment holding exactly the variable `SERVER_PORT=9000` (the
variable name used literally in the spec scenario). -/
def envLiteralServerPort : Env :=
  { lookup := fun k => if k = "SERVER_PORT" then some "9000" else none }

/-- Environment holding exactly `OTLP_INF_SERVER_PORT=9000`, the name
that `envKey` actually derives from the key `otlp_inf.server_port`. -/
def envOtlpServerPort : Env :=
  { lookup := fun k => if k = "OTLP_INF_SERVER_PORT" then some "9000" else none }

/-- Environment holding exactly `OTLP_INF_DEBUG=true`. -/
def envOtlpDebug : Env :=
  { lookup := fun k => if k = "OTLP_INF_DEBUG" then some "true" else none }

/-- Invariant of the coordinator, preserved by every step from every
initial state: the `done` channel has been written exactly once iff the
watcher has returned; buffered content plus receipts balance the sends;
a watcher at or past the send point has observed cancellation; and
service-side cancels happen only in scenarios whose service uses the
passed cancel function. -/
def Inv (sc : Scenario) (s : CState) : Prop :=
  s.events.count Event.doneWrite = (if s.watcher = WatcherPC.wReturned then 1 else 0) ∧
  s.doneBuf + s.events.count Event.doneRead = s.events.count Event.doneWrite ∧
  ((s.watcher = WatcherPC.wWrite ∨ s.watcher = WatcherPC.wReturned) → s.cancelled = true) ∧
  (s.svcCancelPending = true → sc.svcCancels = true) ∧
  (Event.cancelBy Actor.service ∈ s.events → sc.svcCancels = true)

/-- Reachability stays inside any list of states that contains the
start state and is closed under `next`. -/
theorem reach_closed_mem {sc : Scenario} {L : List CState} {a s : CState}
    (ha : a ∈ L) (hL : ∀ x ∈ L, ∀ t ∈ next sc x, t ∈ L) (h : Reach sc a s) :
    s ∈ L := by
  unfold Reach at h
  induction h with
  | refl => exact ha
  | tail _ hstep ih => exact hL _ ih _ hstep

/-- A verified step chain yields reachability of its last state. -/
theorem stepChain_reach (sc : Scenario) :
    ∀ (a : CState) (l : List CState), stepChain sc a l = true →
      Reach sc a (l.getLastD a) := by
  intro a l
  induction l generalizing a with
  | nil => intro _; exact Relation.ReflTransGen.refl
  | cons b rest ih =>
      intro h
      unfold stepChain at h
      rw [Bool.and_eq_true] at h
      have h1 : b ∈ next sc a := of_decide_eq_true h.1
      have h2 := ih b h.2
      rw [List.getLastD_cons]
      exact Relation.ReflTransGen.head h1 h2

/-- The invariant is preserved by every interleaving step. -/
theorem inv_step {sc : Scenario} {s t : CState} (hs : Inv sc s) (ht : t ∈ next sc s) :
    Inv sc t := by
  obtain ⟨i1, i2, i3, i4, i5⟩ := hs
  unfold next at ht
  split at ht
  · simp at ht
  · rcases List.mem_append.1 ht with ht | hwat
    · rcases List.mem_append.1 ht with ht | hmain
      · rcases List.mem_append.1 ht with hdel | hsvc
        · -- OS signal delivery
          unfold deliverSteps at hdel
          split at hdel
          · rw [List.mem_singleton] at hdel
            subst hdel
            exact ⟨i1, i2, i3, i4, i5⟩
          · exact absurd hdel (List.not_mem_nil _)
        · -- service-side cancel
          unfold serviceSteps at hsvc
          split at hsvc
          · rw [List.mem_singleton] at hsvc
            subst hsvc
            refine ⟨?_, ?_, ?_, ?_, ?_⟩ <;>
              simp_all [List.count_append, List.mem_append]
          · exact absurd hsvc (List.not_mem_nil _)
      · -- main routine
        unfold mainSteps at hmain
        split at hmain
        · -- at Start
          split at hmain <;> rw [List.mem_singleton] at hmain <;> subst hmain <;>
            refine ⟨?_, ?_, ?_, ?_, ?_⟩ <;>
            simp_all [List.count_append, List.mem_append]
        · -- blocked on done
          split at hmain
          · rw [List.mem_singleton] at hmain
            subst hmain
            refine ⟨?_, ?_, ?_, ?_, ?_⟩ <;>
              simp_all [List.count_append, List.mem_append] <;> omega
          · exact absurd hmain (List.not_mem_nil _)
        · -- returning from Run
          rw [List.mem_singleton] at hmain
          subst hmain
          refine ⟨?_, ?_, ?_, ?_, ?_⟩ <;>
            simp_all [List.count_append, List.mem_append]
        · exact absurd hmain (List.not_mem_nil _)
    · -- watcher goroutine
      unfold watcherSteps at hwat
      split at hwat
      · -- at the select
        rcases List.mem_append.1 hwat with hw | hw <;> split at hw <;>
            first
            | exact absurd hw (List.not_mem_nil _)
            | (rw [List.mem_singleton] at hw
               subst hw
               refine ⟨?_, ?_, ?_, ?_, ?_⟩ <;>
                 simp_all [List.count_append, List.mem_append])
      · -- after Stop, about to cancel
        rw [List.mem_singleton] at hwat
        subst hwat
        refine ⟨?_, ?_, ?_, ?_, ?_⟩ <;>
          simp_all [List.count_append, List.mem_append]
      · -- sending on done
        split at hwat
        · rw [List.mem_singleton] at hwat
          subst hwat
          refine ⟨?_, ?_, ?_, ?_, ?_⟩ <;>
            simp_all [List.count_append, List.mem_append]
        · exact absurd hwat (List.not_mem_nil _)
      · exact absurd hwat (List.not_mem_nil _)

/-- The invariant holds at every initial state. -/
theorem inv_init (sc : Scenario) (n : Nat) : Inv sc (initState n) := by
  refine ⟨?_, ?_, ?_, ?_, ?_⟩ <;> simp [initState]

/-- The invariant holds at every reachable state of every run. -/
theorem inv_reach {sc : Scenario} {n : Nat} {s : CState}
    (h : Reach sc (initState n) s) : Inv sc s := by
  unfold Reach at h
  induction h with
  | refl => exact inv_init sc n
  | tail _ hstep ih => exact inv_step ih hstep

/-- The eight states of `sigStates` are closed under `next`: the
one-signal shutdown from `Running` admits no other behaviour. -/
theorem sigStates_closed :
    ∀ x ∈ sigStates, ∀ t ∈ next plainScenario x, t ∈ sigStates := by decide

/-- The two states of the signal-free `Start`-error run are closed
under `next`. -/
theorem startErrStates_closed :
    ∀ x ∈ startErrStates, ∀ t ∈ next startErrScenario x, t ∈ startErrStates := by decide

/-- C1: the command-line flag values never reach the resolved
configuration. With the `server_port` flag explicitly set to `8080` and
an empty environment, `viper.Unmarshal` overwrites the flag-assigned
field with the default `10222`; with the environment variable also set
to `9000`, the environment wins over the flag. The claim that flag
values always override both environment and defaults fails on the
code. -/
theorem server_port_flag_ignored :
    runResolveConfig "dev" emptyEnv { defaultFlags with serverPort := 8080 } =
      Except.ok { version := "dev", otlpInf := { debug := false, serverHost := "localhost", serverPort := 10222 } } ∧
    runResolveConfig "dev" envOtlpServerPort { defaultFlags with serverPort := 8080 } =
      Except.ok { version := "dev", otlpInf := { debug := false, serverHost := "localhost", serverPort := 9000 } } ∧
    (10222 : Nat) ≠ 8080 ∧ (9000 : Nat) ≠ 8080 :=
  ⟨rfl, rfl, by decide, by decide⟩

/-- C2: a termination signal received while the service is `Running`
(one signal pending, `Start` already returned nil) leads, under every
interleaving, to exactly the event sequence: one `Stop` call on a live
context, one watcher-side cancellation, one `done` write, one `done`
read, the deferred sync, exit with code 0 — and the only state with no
successor is the exit-0 state. -/
theorem signal_shutdown_strict_order (s : CState)
    (h : Reach plainScenario (runningState 1) s) :
    (s.exited = some 0 → s.events = shutdownTrace) ∧
    (next plainScenario s = [] → s.exited = some 0) := by
  have hm : s ∈ sigStates := reach_closed_mem (by decide) sigStates_closed h
  exact (by decide :
    ∀ x ∈ sigStates, (x.exited = some 0 → x.events = shutdownTrace) ∧
      (next plainScenario x = [] → x.exited = some 0)) s hm

/-- C2 witness: the terminal state of the shutdown is reachable and
carries exactly the claimed event sequence. -/
theorem signal_shutdown_strict_order_witness :
    shutdownFinal.events = shutdownTrace :=
  (signal_shutdown_strict_order shutdownFinal
    (stepChain_reach plainScenario (runningState 1)
      [sigDelivered, stopDone, cancelDone, atWrite, writeDone, readDone, shutdownFinal]
      (by decide))).1 rfl

/-- C3 counterexample: on the `Start`-error exit path the process
reaches exit code 1 with no `logger.Sync()` event — `os.Exit(1)` does
not run the deferred flush, so the logger is not flushed on every exit
path. -/
theorem sync_skipped_on_start_error :
    Reach startErrScenario (initState 0) startErrFinal ∧
    startErrFinal.exited = some 1 ∧ Event.syncEv ∉ startErrFinal.events := by
  refine ⟨?_, by decide, by decide⟩
  exact stepChain_reach startErrScenario (initState 0) [startErrFinal] (by decide)

/-- C3 amended: the deferred `logger.Sync()` runs on the normal
(signal-shutdown) return path of `Run` before the process exits, but on
the `Start`-error path `os.Exit(1)` terminates the process without
invoking the deferred flush. -/
theorem sync_flush_on_normal_path_only :
    (∀ s : CState, Reach plainScenario (runningState 1) s → s.exited = some 0 →
      Event.syncEv ∈ s.events ∧ s.events = shutdownTrace) ∧
    (Reach startErrScenario (initState 0) startErrFinal ∧
      startErrFinal.exited = some 1 ∧ Event.syncEv ∉ startErrFinal.events) := by
  constructor
  · intro s h hx
    have hm : s ∈ sigStates := reach_closed_mem (by decide) sigStates_closed h
    exact (by decide : ∀ x ∈ sigStates, x.exited = some 0 →
      Event.syncEv ∈ x.events ∧ x.events = shutdownTrace) s hm hx
  · refine ⟨?_, by decide, by decide⟩
    exact stepChain_reach startErrScenario (initState 0) [startErrFinal] (by decide)

/-- C3 amended witness: the normal-path flush instantiated at the
reachable terminal state. -/
theorem sync_flush_on_normal_path_only_witness :
    Event.syncEv ∈ shutdownFinal.events :=
  (sync_flush_on_normal_path_only.1 shutdownFinal
    (stepChain_reach plainScenario (runningState 1)
      [sigDelivered, stopDone, cancelDone, atWrite, writeDone, readDone, shutdownFinal]
      (by decide)) rfl).1

/-- C4 counterexample: if a termination signal races with `a.Start`,
the watcher invokes `a.Stop` and cancels, and `Start` returning its
error afterwards still exits with code 1 — so "`Start` returns a
non-nil error implies `Stop` is never called" fails on the code. -/
theorem stop_called_despite_start_error :
    Reach startErrScenario (initState 1) raceFinal ∧
    raceFinal.exited = some 1 ∧ Event.stopCall false ∈ raceFinal.events := by
  refine ⟨?_, by decide, by decide⟩
  exact stepChain_reach startErrScenario (initState 1)
    [raceDelivered, raceStopDone, raceCancelDone, raceFinal] (by decide)

/-- C4 amended: if `Start` returns a non-nil error and no termination
signal is delivered during the run, then `Stop` is never called, the
main routine never blocks on the Completion Signal, and the only
possible exit code is 1 (and the run can only halt by exiting 1). -/
theorem start_error_no_signal_no_stop (s : CState)
    (h : Reach startErrScenario (initState 0) s) :
    (∀ b : Bool, Event.stopCall b ∉ s.events) ∧ s.main ≠ MainPC.mWait ∧
    (∀ c : Nat, s.exited = some c → c = 1) ∧
    (next startErrScenario s = [] → s.exited = some 1) := by
  have hm : s ∈ startErrStates := reach_closed_mem (by decide) startErrStates_closed h
  exact (by decide : ∀ x ∈ startErrStates,
    (∀ b : Bool, Event.stopCall b ∉ x.events) ∧ x.main ≠ MainPC.mWait ∧
    (∀ c : Nat, x.exited = some c → c = 1) ∧
    (next startErrScenario x = [] → x.exited = some 1)) s hm

/-- C4 amended witness: instantiated at the reachable error-exit
state. -/
theorem start_error_no_signal_no_stop_witness :
    Event.stopCall false ∉ startErrFinal.events ∧ startErrFinal.main ≠ MainPC.mWait :=
  ⟨(start_error_no_signal_no_stop startErrFinal
      (stepChain_reach startErrScenario (initState 0) [startErrFinal] (by decide))).1 false,
    (start_error_no_signal_no_stop startErrFinal
      (stepChain_reach startErrScenario (initState 0) [startErrFinal] (by decide))).2.1⟩

/-- C5: in every run (any scenario, any number of incoming termination
signals) the `done` channel is written at most once; a write implies
the root context was cancelled, and the write happens exactly when the
watcher has returned. -/
theorem done_written_at_most_once (sc : Scenario) (n : Nat) (s : CState)
    (h : Reach sc (initState n) s) :
    s.events.count Event.doneWrite ≤ 1 ∧
    (Event.doneWrite ∈ s.events → s.cancelled = true) ∧
    (Event.doneWrite ∈ s.events ↔ s.watcher = WatcherPC.wReturned) := by
  obtain ⟨i1, i2, i3, _, _⟩ := inv_reach h
  have hmem : Event.doneWrite ∈ s.events ↔ 0 < s.events.count Event.doneWrite :=
    List.count_pos_iff.symm
  constructor
  · rw [i1]; split <;> omega
  constructor
  · intro hw
    exact i3 (Or.inr (by rw [hmem, i1] at hw; by_contra hc; simp [hc] at hw))
  · rw [hmem, i1]
    constructor
    · intro hp; by_contra hc; simp [hc] at hp
    · intro hr; simp [hr]

/-- C5 witness: instantiated at the terminal state of a graceful
shutdown, where the single write has happened. -/
theorem done_written_at_most_once_witness :
    shutdownFinal.events.count Event.doneWrite ≤ 1 ∧
    shutdownFinal.cancelled = true ∧ shutdownFinal.watcher = WatcherPC.wReturned :=
  ⟨(done_written_at_most_once plainScenario 1 shutdownFinal
      (stepChain_reach plainScenario (initState 1)
        [runningState 1, sigDelivered, stopDone, cancelDone, atWrite, writeDone,
          readDone, shutdownFinal] (by decide))).1,
    (done_written_at_most_once plainScenario 1 shutdownFinal
      (stepChain_reach plainScenario (initState 1)
        [runningState 1, sigDelivered, stopDone, cancelDone, atWrite, writeDone,
          readDone, shutdownFinal] (by decide))).2.1 (by decide),
    (done_written_at_most_once plainScenario 1 shutdownFinal
      (stepChain_reach plainScenario (initState 1)
        [runningState 1, sigDelivered, stopDone, cancelDone, atWrite, writeDone,
          readDone, shutdownFinal] (by decide))).2.2.mp (by decide)⟩

/-- C6 counterexample: an environment variable literally named
`SERVER_PORT` (the name used by the claim's scenarios) is not consulted
— the key `otlp_inf.server_port` maps to `OTLP_INF_SERVER_PORT` — so
the resolved port stays `10222`, not `9000`; and even under the correct
name, a `-p 8080` flag does not yield `8080`. -/
theorem env_server_port_literal_name_fails :
    runResolveConfig "dev" envLiteralServerPort defaultFlags =
      Except.ok { version := "dev", otlpInf := { debug := false, serverHost := "localhost", serverPort := 10222 } } ∧
    (10222 : Nat) ≠ 9000 ∧
    runResolveConfig "dev" envOtlpServerPort { defaultFlags with serverPort := 8080 } =
      Except.ok { version := "dev", otlpInf := { debug := false, serverHost := "localhost", serverPort := 9000 } } ∧
    (9000 : Nat) ≠ 8080 :=
  ⟨rfl, by decide, rfl, by decide⟩

/-- C6 amended: with `OTLP_INF_SERVER_PORT=9000` (the environment name
`envKey` derives for the key `otlp_inf.server_port`) and no flag, the
resolved port is `9000`; with the same environment and flag `-p 8080`
the resolved port is still `9000` (flag values are overwritten by
`viper.Unmarshal`); with no environment and no flag it is the default
`10222`. -/
theorem env_server_port_scenarios :
    runResolveConfig "dev" envOtlpServerPort defaultFlags =
      Except.ok { version := "dev", otlpInf := { debug := false, serverHost := "localhost", serverPort := 9000 } } ∧
    runResolveConfig "dev" envOtlpServerPort { defaultFlags with serverPort := 8080 } =
      Except.ok { version := "dev", otlpInf := { debug := false, serverHost := "localhost", serverPort := 9000 } } ∧
    runResolveConfig "dev" emptyEnv defaultFlags =
      Except.ok { version := "dev", otlpInf := { debug := false, serverHost := "localhost", serverPort := 10222 } } :=
  ⟨rfl, rfl, rfl⟩

/-- C7: the logger's minimum level is `Debug` when the debug flag is
true and `Info` when it is false; with the flag false, `Debug` records
are suppressed while `Info` and everything above are emitted. -/
theorem logger_level_from_debug_flag :
    atomicLevelOf true = zapDebugLevel ∧ atomicLevelOf false = zapInfoLevel ∧
    levelEnabled (atomicLevelOf true) zapDebugLevel = true ∧
    levelEnabled (atomicLevelOf false) zapDebugLevel = false ∧
    levelEnabled (atomicLevelOf false) zapInfoLevel = true ∧
    (∀ l : Int, zapInfoLevel ≤ l → levelEnabled (atomicLevelOf false) l = true) := by
  refine ⟨rfl, rfl, rfl, rfl, rfl, ?_⟩
  intro l hl
  simp [levelEnabled, atomicLevelOf, zapInfoLevel] at hl ⊢
  omega

/-- C7 witness: warn-level records are emitted with the flag false. -/
theorem logger_level_from_debug_flag_witness :
    levelEnabled (atomicLevelOf false) zapWarnLevel = true :=
  logger_level_from_debug_flag.2.2.2.2.2 zapWarnLevel (by decide)

/-- C8 counterexample: the root context gets cancelled by the service —
which received `cancelFunc` as an argument of
`a.Start(rootCtx, cancelFunc)` — in a run where the signal-handling
routine never received a signal, never called `Stop` and never
cancelled; so the cancel capability is not exclusive to the
signal-handling routine. -/
theorem root_context_cancelled_by_service :
    Reach svcCancelScenario (initState 0) svcCancelled ∧
    svcCancelled.cancelled = true ∧
    (∀ b : Bool, Event.stopCall b ∉ svcCancelled.events) ∧
    Event.cancelBy Actor.watcher ∉ svcCancelled.events := by
  refine ⟨?_, by decide, by decide, by decide⟩
  exact stepChain_reach svcCancelScenario (initState 0) [svcStarted, svcCancelled] (by decide)

/-- C8 amended: the Completion Signal has the watcher as its only
writer (a write has happened exactly when the watcher has returned),
while the root context's cancel function is invoked by the watcher's
signal branch but is also handed to the service by
`a.Start(rootCtx, cancelFunc)`; service-side cancellations occur
exactly in scenarios whose service uses that capability. -/
theorem sync_primitive_writer_roles (sc : Scenario) (n : Nat) (s : CState)
    (h : Reach sc (initState n) s) :
    (Event.doneWrite ∈ s.events ↔ s.watcher = WatcherPC.wReturned) ∧
    (Event.cancelBy Actor.service ∈ s.events → sc.svcCancels = true) := by
  obtain ⟨i1, _, _, _, i5⟩ := inv_reach h
  have hmem : Event.doneWrite ∈ s.events ↔ 0 < s.events.count Event.doneWrite :=
    List.count_pos_iff.symm
  refine ⟨?_, i5⟩
  rw [hmem, i1]
  constructor
  · intro hp; by_contra hc; simp [hc] at hp
  · intro hr; simp [hr]

/-- C8 amended witness: instantiated at the graceful-shutdown terminal
state, whose single `done` write came from the returned watcher. -/
theorem sync_primitive_writer_roles_witness :
    Event.doneWrite ∈ shutdownFinal.events :=
  (sync_primitive_writer_roles plainScenario 1 shutdownFinal
    (stepChain_reach plainScenario (initState 1)
      [runningState 1, sigDelivered, stopDone, cancelDone, atWrite, writeDone,
        readDone, shutdownFinal] (by decide))).1.mpr (by decide)

/-- C9: the logger's minimum level depends only on the `Debug` flag
global: for any flag record with the debug flag unset, even with the
environment variable `OTLP_INF_DEBUG=true` (which does drive the
resolved configuration's debug field to true), the logger level is
`Info` and debug records are suppressed. -/
theorem logger_level_ignores_env_debug (fl : Flags) (hfl : fl.debug = false) :
    atomicLevelOf fl.debug = zapInfoLevel ∧
    levelEnabled (atomicLevelOf fl.debug) zapDebugLevel = false ∧
    runResolveConfig "dev" envOtlpDebug fl =
      Except.ok { version := "dev", otlpInf := { debug := true, serverHost := "localhost", serverPort := 10222 } } := by
  rw [hfl]
  exact ⟨rfl, rfl, rfl⟩

/-- C9 witness: instantiated at the default flag values. -/
theorem logger_level_ignores_env_debug_witness :
    atomicLevelOf defaultFlags.debug = zapInfoLevel ∧
    levelEnabled (atomicLevelOf defaultFlags.debug) zapDebugLevel = false ∧
    runResolveConfig "dev" envOtlpDebug defaultFlags =
      Except.ok { version := "dev", otlpInf := { debug := true, serverHost := "localhost", serverPort := 10222 } } :=
  logger_level_ignores_env_debug defaultFlags rfl

/-- C10: in every reachable state of every run the `done` buffer holds
at most one value (capacity 1 suffices); whenever the watcher is at the
send, the buffer is empty, and the send step — which moves the watcher
to returned — is enabled whenever the process is still alive: the
buffered send never blocks. -/
theorem done_send_never_blocks (sc : Scenario) (n : Nat) (s : CState)
    (h : Reach sc (initState n) s) :
    s.doneBuf ≤ 1 ∧
    (s.watcher = WatcherPC.wWrite → s.doneBuf = 0) ∧
    (s.watcher = WatcherPC.wWrite → s.exited = none →
      { s with doneBuf := s.doneBuf + 1, watcher := WatcherPC.wReturned, events := s.events ++ [Event.doneWrite] } ∈ next sc s) := by
  obtain ⟨i1, i2, i3, _, _⟩ := inv_reach h
  have hb : s.doneBuf ≤ 1 := by rw [i1] at i2; split at i2 <;> omega
  have h0 : s.watcher = WatcherPC.wWrite → s.doneBuf = 0 := by
    intro hw
    rw [hw] at i1
    simp at i1
    omega
  refine ⟨hb, h0, ?_⟩
  intro hw hex
  unfold next
  rw [hex]
  simp only [Option.isSome_none, Bool.false_eq_true, if_false, List.mem_append]
  right
  unfold watcherSteps
  rw [hw]
  rw [h0 hw]
  simp [hex]

/-- C10 witness: instantiated at the reachable state where the watcher
is about to send: the buffer is empty there. -/
theorem done_send_never_blocks_witness :
    atWrite.doneBuf = 0 :=
  (done_send_never_blocks plainScenario 1 atWrite
    (stepChain_reach plainScenario (initState 1)
      [runningState 1, sigDelivered, stopDone, cancelDone, atWrite] (by decide))).2.1 rfl

end OtlpInfMain
